import Mathlib

/-!
Shallow embedding of `src/index.js` (the daily growth-activity report script).

The four core functions of the source are modelled as pure Lean functions,
with the HTTP transport and the wall clock passed in as oracles:

* `fetchWithRetry`   — the Resilient Request Executor (src/index.js:15-43);
* `fetchDevelopers`  — the Paginated Collection Fetcher (src/index.js:54-89);
* `hasGrowthActivityToday` — the Activity Classifier (src/index.js:128-164);
* `generateGrowthReport`   — the Report Aggregator (src/index.js:176-212).

JavaScript exceptions are modelled with `Except` / explicit result
constructors; `await setTimeout(ms)` is modelled by recording the argument
passed to the suspension primitive (with `effectiveDelay` giving the actual
clamped delay, per the HTML timer specification: negative or NaN timeouts
behave as 0); `Date.now()` is an oracle indexed by the attempt number.
-/

namespace CodeBloom

/-- A Response Envelope as consumed by `fetchWithRetry`: status code,
status text and the header mapping.  Header lookup (`Headers.get`) is
case-insensitive on the header name, as in the fetch API. -/
structure Response where
  status : Nat
  statusText : String
  headers : List (String × String)
deriving DecidableEq

/-- ASCII lowercasing of one character, the case folding the fetch API
applies to header names. -/
def lowerChar (c : Char) : Char :=
  if 'A' ≤ c ∧ c ≤ 'Z' then Char.ofNat (c.toNat + 32) else c

/-- Case-insensitive equality of header names (ASCII case folding). -/
def headerNameEq (a b : String) : Bool :=
  a.toList.map lowerChar == b.toList.map lowerChar

/-- `Headers.get name`: case-insensitive lookup of a header value. -/
def headersGet (hs : List (String × String)) (name : String) : Option String :=
  (hs.find? fun p => headerNameEq p.1 name).map (·.2)

/-- `response.ok` of the fetch API: status in the 2xx success range. -/
def Response.ok (r : Response) : Bool :=
  200 ≤ r.status && r.status ≤ 299

/-- The digits making up the leading decimal-digit run of a character list. -/
def leadingDigits (cs : List Char) : List Char :=
  cs.takeWhile Char.isDigit

/-- Value of a list of decimal digits, most significant first. -/
def digitsToNat (cs : List Char) : Nat :=
  cs.foldl (fun acc c => acc * 10 + (c.toNat - 48)) 0

/-- JavaScript `parseInt` on a string (decimal): skip surrounding
whitespace, read an optional sign and then the longest run of decimal
digits; `none` models the `NaN` result when no digit is found. -/
def jsParseInt (s : String) : Option Int :=
  match s.toList.dropWhile Char.isWhitespace with
  | '-' :: rest =>
      let ds := leadingDigits rest
      if ds.isEmpty then none else some (-(digitsToNat ds : Int))
  | '+' :: rest =>
      let ds := leadingDigits rest
      if ds.isEmpty then none else some (digitsToNat ds : Int)
  | cs =>
      let ds := leadingDigits cs
      if ds.isEmpty then none else some (digitsToNat ds : Int)

/-- Outcome of `fetchWithRetry`: a returned response, the thrown
`Request failed: <statusText>` error, or the thrown
`Max retries exceeded` error. -/
inductive FetchResult where
  | success (response : Response)
  | requestFailed (statusText : String)
  | retryExhausted
deriving DecidableEq

/-- Observable behaviour of one `fetchWithRetry` call: its outcome, the
arguments passed to `setTimeout` (in order; `none` models `NaN`), and how
many network requests (`fetch` calls) were performed. -/
structure ExecTrace where
  result : FetchResult
  waits : List (Option Int)
  requests : Nat
deriving DecidableEq

/-- The delay actually slept by `setTimeout(resolve, w)`: a missing (NaN)
or negative timeout is treated as 0 (HTML timer clamping); no error. -/
def effectiveDelay : Option Int → Int
  | none => 0
  | some w => max w 0

/-- The rate-limit wait in milliseconds computed at src/index.js:29-31:
`parseInt(headers.get('X-RateLimit-Reset')) * 1000 - Date.now() + 1000`.
`none` models the `NaN` that results when the reset header is absent or
non-numeric. -/
def rateLimitWait (r : Response) (now : Int) : Option Int :=
  ((headersGet r.headers "X-RateLimit-Reset").bind jsParseInt).map
    fun reset => reset * 1000 - now + 1000

/-- The loop body of `fetchWithRetry` (src/index.js:16-40), unrolled as
structural recursion on the remaining iterations.  `fetchO j` is the
response that `await fetch(url, options)` yields on attempt `j`
(0-indexed) and `nowO j` is `Date.now()` during attempt `j`. -/
def fetchWithRetryGo (fetchO : Nat → Response) (nowO : Nat → Int) :
    Nat → Nat → ExecTrace
  | _, 0 => ⟨.retryExhausted, [], 0⟩
  | i, fuel + 1 =>
    let response := fetchO i
    if response.ok then
      ⟨.success response, [], 1⟩
    else if response.status = 403 ∧
        headersGet response.headers "X-RateLimit-Remaining" = some "0" then
      let rest := fetchWithRetryGo fetchO nowO (i + 1) fuel
      ⟨rest.result, rateLimitWait response (nowO i) :: rest.waits, rest.requests + 1⟩
    else
      ⟨.requestFailed response.statusText, [], 1⟩

/-- `fetchWithRetry(url, options, retries)` (src/index.js:15-43).  The url
and options are absorbed into the transport oracle `fetchO`.  `retries` is
an integer; the `for (let i = 0; i < retries; i++)` loop runs
`max 0 retries` times. -/
def fetchWithRetry (fetchO : Nat → Response) (nowO : Nat → Int)
    (retries : Int) : ExecTrace :=
  fetchWithRetryGo fetchO nowO 0 retries.toNat

/-- A Contributor as returned by the contributors endpoint: the login
identifier (the only field the script reads) with the rest of the JSON
object opaque. -/
structure Developer where
  login : String
deriving DecidableEq

/-- The `while (true)` pagination loop of `fetchDevelopers`
(src/index.js:65-85), as structural recursion on a fuel bound.  `pagesO p`
is the JSON array that page `p` of the contributors endpoint yields (page
requests here succeed; a failing page request would propagate out of
`fetchWithRetry` and abort pagination).  Returns the accumulated
contributor list together with the number of page requests performed.
Fuel 0 stands for the loop still running (unreachable on the inputs the
claims are about). -/
def fetchDevelopersGo (pagesO : Nat → List Developer) :
    Nat → Nat → List Developer × Nat
  | _, 0 => ([], 0)
  | page, fuel + 1 =>
    let data := pagesO page
    if data.length = 0 then ([], 1)
    else
      let rest := fetchDevelopersGo pagesO (page + 1) fuel
      (data ++ rest.1, rest.2 + 1)

/-- `fetchDevelopers()` (src/index.js:54-89): pagination starts at page 1
with fixed page size 100 (the page size is baked into the request URL and
realised by the `pagesO` oracle). -/
def fetchDevelopers (pagesO : Nat → List Developer) (fuel : Nat) :
    List Developer × Nat :=
  fetchDevelopersGo pagesO 1 fuel

/-- An Event from the user events endpoint: its type tag and the instant
denoted by its `created_at` ISO-8601 timestamp, as seconds since the Unix
epoch. -/
structure Event where
  type : String
  created_at : Int
deriving DecidableEq

/-- The calendar day (as an epoch day number) of an instant expressed in
the Asia/Seoul timezone, a fixed UTC+9 offset.  This is the net effect of
src/index.js:130-136 and 148-157: render the instant as Seoul wall-clock
time, re-parse it, and truncate to year/month/day; two instants produce
the same (year, month, day) triple in Seoul exactly when their Seoul day
numbers agree. -/
def seoulDayNumber (t : Int) : Int :=
  (t + 9 * 3600).fdiv 86400

/-- The calendar day (epoch day number) of an instant in UTC, i.e. the
date obtained by truncating BEFORE any timezone conversion.  Used only to
state that the classifier does not do this. -/
def utcDayNumber (t : Int) : Int :=
  t.fdiv 86400

/-- `hasGrowthActivityToday(events)` (src/index.js:128-164) with the
current instant (`new Date()`) passed explicitly as `now`: some event has
type tag exactly "PushEvent" or "CreateEvent" and falls on the same
Seoul-timezone calendar day as `now`. -/
def hasGrowthActivityToday (now : Int) (events : List Event) : Bool :=
  let todaySeoul := seoulDayNumber now
  events.any fun event =>
    if event.type ≠ "PushEvent" ∧ event.type ≠ "CreateEvent" then false
    else seoulDayNumber event.created_at == todaySeoul

/-- The header line of the report (src/index.js:185), with the ko-KR
formatted current Seoul time passed in opaquely. -/
def reportHeader (nowKoKr : String) : String :=
  "## 🌱 " ++ nowKoKr ++ " 성장 활동 현황\n\n"

/-- The per-contributor bullet line appended by the loop at
src/index.js:193 and 197: `some true` marks an active contributor,
`some false` an inactive one, `none` the per-contributor error path. -/
def devLine (login : String) : Option Bool → String
  | some true =>
      "- 🫠 **[" ++ login ++ "](https://github.com/" ++ login ++ ")** \n"
  | some false =>
      "- 🤫 [" ++ login ++ "](https://github.com/" ++ login ++ ") \n"
  | none =>
      "- 🫥 [" ++ login ++ "](https://github.com/" ++ login ++ ") (일시적 오류)\n"

/-- The per-contributor loop of `generateGrowthReport`
(src/index.js:188-199).  `eventsO login` is the outcome of
`fetchDeveloperActivity(login)` (`.error` when the fetch throws); the
inner `try/catch` turns an error into the error-marked line and continues.
Returns the final `activeCount` and the concatenated lines. -/
def reportLoop (eventsO : String → Except String (List Event)) (now : Int) :
    List Developer → Nat × String
  | [] => (0, "")
  | dev :: rest =>
    let step :=
      match eventsO dev.login with
      | .ok events =>
          let isActive := hasGrowthActivityToday now events
          ((if isActive then 1 else 0), devLine dev.login (some isActive))
      | .error _ => (0, devLine dev.login none)
    let tail := reportLoop eventsO now rest
    (step.1 + tail.1, step.2 ++ tail.2)

/-- The outcome of one contributor's iteration, for stating line-level
properties: `none` when the event fetch fails, otherwise the activity
verdict. -/
def devOutcome (eventsO : String → Except String (List Event)) (now : Int)
    (login : String) : Option Bool :=
  match eventsO login with
  | .ok events => some (hasGrowthActivityToday now events)
  | .error _ => none

/-- The per-contributor lines of the report as a list, one entry per
contributor in the list's original order. -/
def reportLines (eventsO : String → Except String (List Event)) (now : Int)
    (devs : List Developer) : List String :=
  devs.map fun dev => devLine dev.login (devOutcome eventsO now dev.login)

/-- Renders the rational `num / den` (with `den ≠ 0`) rounded half-up to
two decimal places, as JavaScript `Number.prototype.toFixed(2)` renders
it on the claims' inputs. -/
def toFixed2 (num den : Nat) : String :=
  let scaled := (num * 200 + den) / (2 * den)
  toString (scaled / 100) ++ "." ++
    (if scaled % 100 < 10 then "0" else "") ++ toString (scaled % 100)

/-- `((activeCount / developers.length) * 100).toFixed(2)`
(src/index.js:202) under JavaScript number semantics: division by zero of
a zero (resp. positive) numerator gives NaN (resp. Infinity), and
`toFixed` renders those as the strings "NaN" and "Infinity". -/
def participationRateString (active total : Nat) : String :=
  if total = 0 then (if active = 0 then "NaN" else "Infinity")
  else toFixed2 (active * 100) total

/-- The trailing summary line appended at src/index.js:203. -/
def summaryLine (active total : Nat) : String :=
  "\n### 📊 참여율: " ++ participationRateString active total ++ "% (" ++
    toString active ++ "/" ++ toString total ++ "명)"

/-- `generateGrowthReport()` (src/index.js:176-212).  `devsResult` is the
outcome of the `fetchDevelopers()` call (`.error` when it throws);
`eventsO` is the per-login outcome of `fetchDeveloperActivity`; `nowKoKr`
is the formatted Seoul time for the header and `now` the reference
instant used by the classifier.  The outer `try/catch` turns any
contributor-list failure into the fixed degraded-service message, so the
function always returns a document and never raises. -/
def generateGrowthReport (nowKoKr : String) (now : Int)
    (eventsO : String → Except String (List Event))
    (devsResult : Except String (List Developer)) : String :=
  match devsResult with
  | .error _ => "⚠️ 시스템 점검 중입니다. 30분 후 다시 시도해주세요."
  | .ok developers =>
    let loop := reportLoop eventsO now developers
    reportHeader nowKoKr ++ loop.2 ++ summaryLine loop.1 developers.length

/-- A rate-limited response: 403 with `X-RateLimit-Remaining: 0`, used to
instantiate the executor theorems at a concrete input. -/
def rlResponse : Response :=
  ⟨403, "Forbidden",
    [("X-RateLimit-Remaining", "0"), ("X-RateLimit-Reset", "100")]⟩

/-- C1: for a response with status exactly 403, remaining-quota header "0"
and reset header parsing to `T` epoch seconds, the executor suspends via
`setTimeout` with argument `T*1000 - now + 1000` before the next attempt
(the run continues with the remaining attempts rather than erroring), and
the suspension primitive sleeps `max 0 (T*1000 - now + 1000)` — a zero or
negative argument is treated as zero by the same primitive. -/
theorem C1_rate_limit_wait (fetchO : Nat → Response) (nowO : Nat → Int)
    (i fuel : Nat) (T : Int)
    (hok : (fetchO i).ok = false)
    (hst : (fetchO i).status = 403)
    (hrem : headersGet (fetchO i).headers "X-RateLimit-Remaining" = some "0")
    (hT : (headersGet (fetchO i).headers "X-RateLimit-Reset").bind jsParseInt
      = some T) :
    fetchWithRetryGo fetchO nowO i (fuel + 1) =
      ⟨(fetchWithRetryGo fetchO nowO (i + 1) fuel).result,
        some (T * 1000 - nowO i + 1000) ::
          (fetchWithRetryGo fetchO nowO (i + 1) fuel).waits,
        (fetchWithRetryGo fetchO nowO (i + 1) fuel).requests + 1⟩ ∧
    effectiveDelay (some (T * 1000 - nowO i + 1000)) =
      max 0 (T * 1000 - nowO i + 1000) := by
  constructor
  · simp [fetchWithRetryGo, hok, hst, hrem, rateLimitWait, hT]
  · exact max_comm _ _

/-- Witness for C1 at a concrete rate-limited response whose reset time
has already passed, so the computed wait is negative. -/
theorem C1_rate_limit_wait_witness :
    (rlResponse.ok = false ∧ rlResponse.status = 403 ∧
      headersGet rlResponse.headers "X-RateLimit-Remaining" = some "0" ∧
      (headersGet rlResponse.headers "X-RateLimit-Reset").bind jsParseInt
        = some 100) ∧
    (fetchWithRetryGo (fun _ => rlResponse) (fun _ => 500000) 0 (2 + 1) =
      ⟨(fetchWithRetryGo (fun _ => rlResponse) (fun _ => 500000) 1 2).result,
        some (100 * 1000 - 500000 + 1000) ::
          (fetchWithRetryGo (fun _ => rlResponse) (fun _ => 500000) 1 2).waits,
        (fetchWithRetryGo (fun _ => rlResponse) (fun _ => 500000) 1 2).requests
          + 1⟩ ∧
      effectiveDelay (some (100 * 1000 - 500000 + 1000)) =
        max 0 (100 * 1000 - 500000 + 1000)) :=
  ⟨⟨by decide, by decide, by decide, by decide⟩,
    C1_rate_limit_wait (fun _ => rlResponse) (fun _ => 500000) 0 2 100
      (by decide) (by decide) (by decide) (by decide)⟩

/-- C2: a non-2xx response that is not a 403-with-zero-remaining
rate-limit response makes the executor fail at once with
`Request failed: <statusText>`: exactly one network request, no
suspension, and the outcome does not depend on how many attempts were
still available. -/
theorem C2_fast_fail (fetchO : Nat → Response) (nowO : Nat → Int)
    (i fuel : Nat)
    (hok : (fetchO i).ok = false)
    (hnrl : ¬((fetchO i).status = 403 ∧
      headersGet (fetchO i).headers "X-RateLimit-Remaining" = some "0")) :
    fetchWithRetryGo fetchO nowO i (fuel + 1) =
      ⟨.requestFailed (fetchO i).statusText, [], 1⟩ := by
  simp [fetchWithRetryGo, hok, hnrl]

/-- Witness for C2 at a concrete 404 response with many attempts left. -/
theorem C2_fast_fail_witness :
    ((⟨404, "Not Found", []⟩ : Response).ok = false ∧
      ¬((⟨404, "Not Found", []⟩ : Response).status = 403 ∧
        headersGet (⟨404, "Not Found", []⟩ : Response).headers
          "X-RateLimit-Remaining" = some "0")) ∧
    fetchWithRetryGo (fun _ => (⟨404, "Not Found", []⟩ : Response))
        (fun _ => 0) 0 (7 + 1) =
      ⟨.requestFailed "Not Found", [], 1⟩ :=
  ⟨⟨by decide, by decide⟩,
    C2_fast_fail (fun _ => (⟨404, "Not Found", []⟩ : Response)) (fun _ => 0)
      0 7 (by decide) (by decide)⟩

/-- When every attempt sees a rate-limited response, the loop waits and
retries each time and ends by exhausting its fuel: the result is
`Max retries exceeded`, with one network request and one suspension per
attempt. -/
theorem fetchWithRetryGo_all_rate_limited (fetchO : Nat → Response)
    (nowO : Nat → Int)
    (hall : ∀ j, (fetchO j).ok = false ∧ (fetchO j).status = 403 ∧
      headersGet (fetchO j).headers "X-RateLimit-Remaining" = some "0") :
    ∀ fuel i, (fetchWithRetryGo fetchO nowO i fuel).result = .retryExhausted ∧
      (fetchWithRetryGo fetchO nowO i fuel).requests = fuel ∧
      (fetchWithRetryGo fetchO nowO i fuel).waits.length = fuel := by
  intro fuel
  induction fuel with
  | zero => intro i; exact ⟨rfl, rfl, rfl⟩
  | succ n ih =>
    intro i
    obtain ⟨hok, hst, hrem⟩ := hall i
    have h := ih (i + 1)
    simp [fetchWithRetryGo, hok, hst, hrem, h.1, h.2.1, h.2.2]

/-- C3: if every attempt yields a 403 rate-limit response, the executor
fails with `Max retries exceeded` after exactly `maxAttempts` attempts:
every rate-limited attempt counts toward `maxAttempts` (one request and
one wait per attempt, no separate rate-limit counter), and the error is
raised exactly when the loop has completed all `maxAttempts` iterations
without returning. -/
theorem C3_retry_exhausted (fetchO : Nat → Response) (nowO : Nat → Int)
    (n : Nat)
    (hall : ∀ j, (fetchO j).ok = false ∧ (fetchO j).status = 403 ∧
      headersGet (fetchO j).headers "X-RateLimit-Remaining" = some "0")
    (_hn : 1 ≤ n) :
    (fetchWithRetry fetchO nowO (n : Int)).result = .retryExhausted ∧
    (fetchWithRetry fetchO nowO (n : Int)).requests = n ∧
    (fetchWithRetry fetchO nowO (n : Int)).waits.length = n := by
  have h := fetchWithRetryGo_all_rate_limited fetchO nowO hall n 0
  simpa [fetchWithRetry, Int.toNat_natCast] using h

/-- Witness for C3: three rate-limited attempts, exhausted after 3. -/
theorem C3_retry_exhausted_witness :
    ((∀ j : Nat, ((fun _ => rlResponse) j).ok = false ∧
        ((fun _ => rlResponse) j : Response).status = 403 ∧
        headersGet ((fun _ => rlResponse) j : Response).headers
          "X-RateLimit-Remaining" = some "0") ∧ 1 ≤ 3) ∧
    ((fetchWithRetry (fun _ => rlResponse) (fun _ => 500000) (3 : Int)).result
        = .retryExhausted ∧
      (fetchWithRetry (fun _ => rlResponse) (fun _ => 500000)
        (3 : Int)).requests = 3 ∧
      (fetchWithRetry (fun _ => rlResponse) (fun _ => 500000)
        (3 : Int)).waits.length = 3) :=
  ⟨⟨fun _ =>
      (by decide : rlResponse.ok = false ∧ rlResponse.status = 403 ∧
        headersGet rlResponse.headers "X-RateLimit-Remaining" = some "0"),
      by decide⟩,
    C3_retry_exhausted (fun _ => rlResponse) (fun _ => 500000) 3
      (fun _ =>
        (by decide : rlResponse.ok = false ∧ rlResponse.status = 403 ∧
          headersGet rlResponse.headers "X-RateLimit-Remaining" = some "0"))
      (by decide)⟩

/-- C10: with `retries ≤ 0` the `for (let i = 0; i < retries; i++)` loop
body is never entered: no network request is performed, nothing is slept,
and the call fails immediately with `Max retries exceeded`. -/
theorem C10_nonpositive_retries (fetchO : Nat → Response) (nowO : Nat → Int)
    (retries : Int) (h : retries ≤ 0) :
    fetchWithRetry fetchO nowO retries = ⟨.retryExhausted, [], 0⟩ := by
  simp [fetchWithRetry, Int.toNat_of_nonpos h, fetchWithRetryGo]

/-- Witness for C10 at `retries = 0` with a transport that would succeed
if it were ever consulted. -/
theorem C10_nonpositive_retries_witness :
    ((0 : Int) ≤ 0) ∧
    fetchWithRetry (fun _ => (⟨200, "OK", []⟩ : Response)) (fun _ => 0) 0 =
      ⟨.retryExhausted, [], 0⟩ :=
  ⟨by decide,
    C10_nonpositive_retries (fun _ => (⟨200, "OK", []⟩ : Response))
      (fun _ => 0) 0 (by decide)⟩

/-- C6: with successive pages of sizes 100, 100, 37 and 0, pagination
returns exactly the three non-empty pages appended in page order — 237
items — and performs exactly 4 page requests: it starts at page 1,
increments the page after each non-empty page, and stops only on the
empty page. -/
theorem C6_pagination (pagesO : Nat → List Developer) (fuel : Nat)
    (h1 : (pagesO 1).length = 100) (h2 : (pagesO 2).length = 100)
    (h3 : (pagesO 3).length = 37) (h4 : (pagesO 4).length = 0)
    (hfuel : 4 ≤ fuel) :
    fetchDevelopers pagesO fuel = (pagesO 1 ++ pagesO 2 ++ pagesO 3, 4) ∧
    (fetchDevelopers pagesO fuel).1.length = 237 := by
  obtain ⟨m, rfl⟩ : ∃ m, fuel = m + 1 + 1 + 1 + 1 := ⟨fuel - 4, by omega⟩
  have key : fetchDevelopers pagesO (m + 1 + 1 + 1 + 1) =
      (pagesO 1 ++ pagesO 2 ++ pagesO 3, 4) := by
    simp [fetchDevelopers, fetchDevelopersGo, h1, h2, h3, h4]
  refine ⟨key, ?_⟩
  rw [key]
  simp [h1, h2, h3]

/-- Page oracle realising sizes [100, 100, 37, 0], for the C6 witness. -/
def c6pages : Nat → List Developer := fun p =>
  if p = 1 ∨ p = 2 then List.replicate 100 ⟨"u"⟩
  else if p = 3 then List.replicate 37 ⟨"u"⟩
  else []

/-- Witness for C6 at the concrete page oracle `c6pages`. -/
theorem C6_pagination_witness :
    ((c6pages 1).length = 100 ∧ (c6pages 2).length = 100 ∧
      (c6pages 3).length = 37 ∧ (c6pages 4).length = 0 ∧ 4 ≤ 10) ∧
    (fetchDevelopers c6pages 10 = (c6pages 1 ++ c6pages 2 ++ c6pages 3, 4) ∧
      (fetchDevelopers c6pages 10).1.length = 237) :=
  ⟨⟨by decide, by decide, by decide, by decide, by decide⟩,
    C6_pagination c6pages 10 (by decide) (by decide) (by decide) (by decide)
      (by decide)⟩

/-- C7: the classifier converts to the Asia/Seoul zone BEFORE truncating
to a calendar date.  With the reference instant 2024-01-15T23:59:00+09:00
(epoch second 1705330740) and a "PushEvent" at 2024-01-15T15:01:00Z
(epoch second 1705330860, which is 2024-01-16T00:01:00+09:00), the event
is classified as NOT matching today — even though both instants fall on
the same UTC calendar date, so truncating before converting would have
matched them. -/
theorem C7_seoul_boundary :
    hasGrowthActivityToday 1705330740 [⟨"PushEvent", 1705330860⟩] = false ∧
    utcDayNumber 1705330740 = utcDayNumber 1705330860 := by
  decide

/-- C8: only events whose type tag is exactly "PushEvent" or
"CreateEvent" (the push and create type tags, compared case-sensitively)
are counted: dropping every event of any other type — "ForkEvent", say —
never changes the verdict, regardless of those events' timestamps. -/
theorem C8_type_filter (now : Int) (events : List Event) :
    hasGrowthActivityToday now events =
      hasGrowthActivityToday now
        (events.filter fun e =>
          decide (e.type = "PushEvent" ∨ e.type = "CreateEvent")) := by
  unfold hasGrowthActivityToday
  induction events with
  | nil => rfl
  | cons e es ih =>
    by_cases h : e.type = "PushEvent" ∨ e.type = "CreateEvent"
    · rcases h with h | h <;> simp [List.filter_cons, List.any_cons, h, ih]
    · have h1 : ¬ e.type = "PushEvent" := fun hh => h (Or.inl hh)
      have h2 : ¬ e.type = "CreateEvent" := fun hh => h (Or.inr hh)
      simp [List.filter_cons, List.any_cons, h, h1, h2, ih]

/-- C4: the Report Aggregator never raises to its caller — it is a total
function into report strings, every failure being downgraded to an
in-band document — and if the single contributor-list fetch fails (with
any error, whatever the event oracle or clock) the result is exactly the
one fixed degraded-service message, not a partial report. -/
theorem C4_degraded_on_collection_failure (nowKoKr : String) (now : Int)
    (eventsO : String → Except String (List Event)) (err : String) :
    generateGrowthReport nowKoKr now eventsO (.error err) =
      "⚠️ 시스템 점검 중입니다. 30분 후 다시 시도해주세요." := rfl

/-- C5: per-contributor failures are isolated.  With contributors
`l1, l2, l3` where `l2`'s event fetch raises and the other two succeed,
the document has exactly 3 per-contributor lines in the original order —
two normal ones and the error-marked one for `l2` — the loop is not
aborted, and the participation-rate denominator of the summary line is
still 3. -/
theorem C5_per_contributor_isolation (nowKoKr : String) (now : Int)
    (eventsO : String → Except String (List Event))
    (l1 l2 l3 msg : String) (es1 es3 : List Event)
    (h1 : eventsO l1 = .ok es1) (h2 : eventsO l2 = .error msg)
    (h3 : eventsO l3 = .ok es3) :
    reportLines eventsO now [⟨l1⟩, ⟨l2⟩, ⟨l3⟩] =
      [devLine l1 (some (hasGrowthActivityToday now es1)), devLine l2 none,
        devLine l3 (some (hasGrowthActivityToday now es3))] ∧
    (reportLines eventsO now [⟨l1⟩, ⟨l2⟩, ⟨l3⟩]).length = 3 ∧
    generateGrowthReport nowKoKr now eventsO (.ok [⟨l1⟩, ⟨l2⟩, ⟨l3⟩]) =
      reportHeader nowKoKr ++
        (devLine l1 (some (hasGrowthActivityToday now es1)) ++
          (devLine l2 none ++
            devLine l3 (some (hasGrowthActivityToday now es3)))) ++
      summaryLine
        ((if hasGrowthActivityToday now es1 then 1 else 0) +
          (if hasGrowthActivityToday now es3 then 1 else 0)) 3 := by
  refine ⟨?_, ?_, ?_⟩
  · simp [reportLines, devOutcome, h1, h2, h3]
  · simp [reportLines]
  · simp [generateGrowthReport, reportLoop, h1, h2, h3,
      String.append_empty, String.append_assoc]

/-- Event-fetch oracle for the C5 witness: "alice" and "carol" succeed,
"bob" fails. -/
def c5events : String → Except String (List Event) := fun l =>
  if l = "alice" then .ok [⟨"PushEvent", 1705330740⟩]
  else if l = "bob" then .error "boom"
  else .ok []

/-- Witness for C5: contributors alice, bob, carol where bob's event
fetch fails. -/
theorem C5_per_contributor_isolation_witness :
    (c5events "alice" = .ok [⟨"PushEvent", 1705330740⟩] ∧
      c5events "bob" = .error "boom" ∧
      c5events "carol" = .ok []) ∧
    (reportLines c5events 1705330740 [⟨"alice"⟩, ⟨"bob"⟩, ⟨"carol"⟩] =
      [devLine "alice"
          (some (hasGrowthActivityToday 1705330740 [⟨"PushEvent", 1705330740⟩])),
        devLine "bob" none,
        devLine "carol" (some (hasGrowthActivityToday 1705330740 []))] ∧
      (reportLines c5events 1705330740 [⟨"alice"⟩, ⟨"bob"⟩, ⟨"carol"⟩]).length
        = 3 ∧
      generateGrowthReport "2024. 1. 15." 1705330740 c5events
          (.ok [⟨"alice"⟩, ⟨"bob"⟩, ⟨"carol"⟩]) =
        reportHeader "2024. 1. 15." ++
          (devLine "alice"
            (some (hasGrowthActivityToday 1705330740 [⟨"PushEvent", 1705330740⟩])) ++
            (devLine "bob" none ++
              devLine "carol" (some (hasGrowthActivityToday 1705330740 [])))) ++
        summaryLine
          ((if hasGrowthActivityToday 1705330740 [⟨"PushEvent", 1705330740⟩]
              then 1 else 0) +
            (if hasGrowthActivityToday 1705330740 [] then 1 else 0)) 3) :=
  ⟨⟨rfl, rfl, rfl⟩,
    C5_per_contributor_isolation "2024. 1. 15." 1705330740 c5events
      "alice" "bob" "carol" "boom" [⟨"PushEvent", 1705330740⟩] []
      rfl rfl rfl⟩

/-- C9: with an empty contributor list the Aggregator does not raise and
still returns a document — but the participation-rate division is 0/0,
so the summary line carries the non-numeric "NaN". -/
theorem C9_zero_contributors (nowKoKr : String) (now : Int)
    (eventsO : String → Except String (List Event)) :
    generateGrowthReport nowKoKr now eventsO (.ok []) =
      reportHeader nowKoKr ++ "\n### 📊 참여율: NaN% (0/0명)" := by
  have hs : summaryLine 0 0 = "\n### 📊 참여율: NaN% (0/0명)" := rfl
  simp [generateGrowthReport, reportLoop, String.append_empty, hs]

end CodeBloom
